import Mathlib

/-!
Verification of the Health-Agent dialogue orchestration engine.

This file gives a shallow embedding of the parts of the repository that the
checked properties talk about:

* `agent.py` — the LangGraph agent: `intent_classifier_node`,
  `entity_extractor_node`, `validation_node`, the `schedule_exam` branch of
  `tool_execution_node`, and the entry point `run_langgraph_agent` /
  `reset_langgraph_session`;
* `exambuilder_agent.py` — the v2 agent: `classify_intent_and_extract_info`,
  `check_information_completeness`, the `schedule_exam` branch of
  `execute_tool`, the `schedule_exam` case of `format_response`, the session
  store (`get_session_state`, `reset_conversation`) and the entry point
  `run_exambuilder_agent_v2`;
* `exambuilder_tools.py` — the `schedule_exam` backend wrapper;
* `tool_registry.py` — `DynamicToolRegistry.execute_tool`.

Python dictionaries are modelled as association lists with unique keys
(`List (String × α)`); Python "truthiness" of an optional string value is
modelled by `truthyStr` (absent or empty string is falsy).  Calls to the
language model and to the HTTP backend are nondeterministic at the level of
the embedded code, so they are passed in as explicit arguments (`Except`
values for calls that can raise).  Where a node both consults an external
call and can skip it, the embedded function additionally returns a `Bool`
recording whether the call was made.
-/

/-- Lookup in a Python-style dict modelled as an association list:
`d.get(k)`. -/
def alistGet {α : Type} (d : List (String × α)) (k : String) : Option α :=
  match d with
  | [] => none
  | p :: rest => if p.1 == k then some p.2 else alistGet rest k

/-- Assignment `d[k] = v` on a Python-style dict: replace the (first)
binding of `k` in place, or append a fresh binding. -/
def alistSet {α : Type} (d : List (String × α)) (k : String) (v : α) :
    List (String × α) :=
  match d with
  | [] => [(k, v)]
  | p :: rest => if p.1 == k then (k, v) :: rest else p :: alistSet rest k v

/-- Model of `d.update(new)` on Python dicts: every binding of `new` is written into
`d`, overwriting existing bindings for the same key. -/
def alistUpdate {α : Type} (d new : List (String × α)) : List (String × α) :=
  new.foldl (fun acc p => alistSet acc p.1 p.2) d

/-- Python truthiness of an optional string: `None` and `""` are falsy. -/
def truthyStr : Option String → Bool
  | none => false
  | some v => v != ""

/-- Does `l` start with `needle`? (helper for substring containment). -/
def charsLeadWith : List Char → List Char → Bool
  | [], _ => true
  | _ :: _, [] => false
  | a :: as, b :: bs => a == b && charsLeadWith as bs

/-- Does `hay` contain `needle` as a contiguous run of characters? -/
def charsContain (needle : List Char) : List Char → Bool
  | [] => needle.isEmpty
  | c :: rest => charsLeadWith needle (c :: rest) || charsContain needle rest

/-- Python `needle in hay` on strings (substring containment). -/
def strContains (hay needle : String) : Bool :=
  charsContain needle.data hay.data

/-- Word-grouping step: whitespace starts a new (empty) group, any other
character extends the current front group. -/
def addCharToWords (c : Char) (acc : List (List Char)) : List (List Char) :=
  if c.isWhitespace then [] :: acc
  else
    match acc with
    | [] => [[c]]
    | w :: ws => (c :: w) :: ws

/-- Python `s.split()`: split on whitespace runs, dropping empty pieces. -/
def pyWords (s : String) : List String :=
  ((s.data.foldr addCharToWords []).filter (fun w => !w.isEmpty)).map
    (fun w => String.mk w)

/-- Python `s.lower()` (character-wise, as `str.lower` on ASCII text). -/
def pyLower (s : String) : String :=
  String.mk (s.data.map Char.toLower)

/-- Python `s.strip()`: drop leading and trailing whitespace. -/
def pyStrip (s : String) : String :=
  String.mk
    (((s.data.dropWhile Char.isWhitespace).reverse.dropWhile
        Char.isWhitespace).reverse)

/-- Python `s.startswith(pre)`. -/
def pyStartsWith (s pre : String) : Bool :=
  charsLeadWith pre.data s.data

/-- Python `s.replace(c, "")` for a single-character pattern: remove every
occurrence of the character. -/
def pyRemoveAll (s : String) (c : Char) : String :=
  String.mk (s.data.filter (fun x => x != c))

/-- Python `s.isalnum()`: non-empty and all characters alphanumeric. -/
def pyIsAlnum (s : String) : Bool :=
  s != "" && s.data.all Char.isAlphanum

/-- Speaker of a conversation message (`HumanMessage` / `AIMessage`). -/
inductive Role where
  | user
  | assistant
  deriving DecidableEq, Repr

/-- One message of a conversation: the speaker together with the text. -/
structure Msg where
  role : Role
  content : String
  deriving DecidableEq, Repr

/-- The latest human message of a conversation, scanning from the end
(the `for msg in reversed(state["messages"])` loops). -/
def latestHuman (msgs : List Msg) : Option String :=
  (msgs.reverse.find? (fun m => m.role == Role.user)).map Msg.content

/-- The latest assistant message of a conversation, scanning from the end. -/
def latestAssistant (msgs : List Msg) : Option String :=
  (msgs.reverse.find? (fun m => m.role == Role.assistant)).map Msg.content

-- Association-list lemmas -----------------------------------------------------

theorem alistGet_alistSet {α : Type} (d : List (String × α)) (k k' : String)
    (v : α) :
    alistGet (alistSet d k' v) k = if k = k' then some v else alistGet d k := by
  induction d with
  | nil =>
    by_cases h : k = k'
    · subst h; simp [alistGet, alistSet]
    · have h' : ¬ (k' = k) := fun hh => h hh.symm
      simp [alistGet, alistSet, h, h']
  | cons p rest ih =>
    by_cases hp : p.1 = k'
    · by_cases h : k = k'
      · subst h; simp [alistSet, alistGet, hp]
      · have h1 : ¬ (k' = k) := fun hh => h hh.symm
        simp [alistSet, alistGet, hp, h, h1]
    · by_cases hpk : p.1 = k
      · have hkk' : ¬ (k = k') := fun hh => hp (hpk.trans hh)
        simp [alistSet, alistGet, hp, hpk, hkk']
      · simp [alistSet, alistGet, hp, hpk, ih]

theorem alistGet_alistUpdate_of_not_mem {α : Type}
    (new prev : List (String × α)) (k : String)
    (h : alistGet new k = none) :
    alistGet (alistUpdate prev new) k = alistGet prev k := by
  induction new generalizing prev with
  | nil => rfl
  | cons p rest ih =>
    by_cases hpk : p.1 = k
    · simp [alistGet, hpk] at h
    · have hrest : alistGet rest k = none := by
        simpa [alistGet, hpk] using h
      have step : alistUpdate prev (p :: rest)
          = alistUpdate (alistSet prev p.1 p.2) rest := rfl
      rw [step, ih _ hrest, alistGet_alistSet]
      have hne : ¬ (k = p.1) := fun hh => hpk hh.symm
      simp [hne]

theorem foldl_append_filter {α : Type} (p : α → Bool) (l acc : List α) :
    l.foldl (fun a f => if p f then a else a ++ [f]) acc
      = acc ++ l.filter (fun f => !p f) := by
  induction l generalizing acc with
  | nil => simp
  | cons x xs ih =>
    by_cases h : p x
    · simp [List.foldl_cons, h, ih]
    · simp [List.foldl_cons, h, ih]

theorem alistGet_filter_self {α : Type} (d : List (String × α)) (k : String) :
    alistGet (d.filter (fun p => p.1 != k)) k = none := by
  induction d with
  | nil => rfl
  | cons p rest ih =>
    by_cases hp : p.1 = k
    · simp [List.filter_cons, hp, ih]
    · simp [List.filter_cons, hp, alistGet, ih]

theorem alistGet_filter_ne {α : Type} (d : List (String × α)) (k k' : String)
    (h : ¬ k' = k) :
    alistGet (d.filter (fun p => p.1 != k)) k' = alistGet d k' := by
  induction d with
  | nil => rfl
  | cons p rest ih =>
    by_cases hp : p.1 = k
    · have hne : ¬ (p.1 = k') := by
        rw [hp]; exact fun hh => h hh.symm
      have hne' : ¬ (k = k') := fun hh => h hh.symm
      simp [List.filter_cons, hp, alistGet, hne, hne', ih]
    · simp [List.filter_cons, hp, alistGet, ih]

-- ============================================================================
-- Model of agent.py (the LangGraph agent)
-- ============================================================================

namespace Agent

/-- The LangGraph agent state (`AgentState` in `agent.py`), restricted to the
fields that the conversational nodes read and write.  `missing_info` uses
`[]` for the Python `None`/absent case, which is truthiness-equivalent. -/
structure AgentState where
  messages : List Msg
  current_intent : Option String
  missing_info : List String
  extracted_entities : List (String × String)
  deriving DecidableEq, Repr

/-- The `simple_patterns` disjunction of `intent_classifier_node`
(`agent.py` lines 117-123): a short or simple utterance that signals a
continuation of the previous intent. -/
def simple_patterns (latest_message : String) : Bool :=
  let lower := pyLower latest_message
  decide ((pyWords latest_message).length ≤ 3)
  || (pyStartsWith lower "my " || pyStartsWith lower "i am "
      || pyStartsWith lower "john" || pyStartsWith lower "doe"
      || pyStartsWith lower "password")
  || (strContains lower "john" || strContains lower "doe"
      || strContains lower "password" || strContains lower "email"
      || strContains lower "@")
  || pyIsAlnum (pyRemoveAll (pyRemoveAll (pyRemoveAll latest_message ' ') ',') '.')

/-- Model of `intent_classifier_node` of `agent.py`.  `llm` is the (exception-prone)
language-model call; the returned `Bool` records whether the model was
invoked.  When a previous intent and missing fields are recorded and the
utterance matches `simple_patterns`, the previous intent is kept and the
model is not consulted; an exception from the model falls back to the
reserved `"help"` intent. -/
def intent_classifier_node (state : AgentState) (llm : Except Unit String) :
    AgentState × Bool :=
  match latestHuman state.messages with
  | none => (state, false)
  | some latest_message =>
    if truthyStr state.current_intent && !state.missing_info.isEmpty
        && simple_patterns latest_message then
      (state, false)
    else
      match llm with
      | .ok content =>
        ({ state with current_intent := some (pyLower (pyStrip content)) }, true)
      | .error _ =>
        ({ state with current_intent := some "help" }, true)

/-- The merge of `entity_extractor_node` (`agent.py` lines 277-279):
`merged = previous.copy(); merged.update(new)` — note that this overwrites
with whatever value the extractor produced, an empty one included. -/
def merge_entities (previous new : List (String × String)) :
    List (String × String) :=
  alistUpdate previous new

/-- Model of `entity_extractor_node` of `agent.py`.  `extract` is the combined
model-call-and-JSON-parse; on an exception the previous entities are kept
(lines 284-287). -/
def entity_extractor_node (state : AgentState)
    (extract : Except Unit (List (String × String))) : AgentState :=
  match latestHuman state.messages with
  | none => state
  | some _ =>
    match extract with
    | .ok new_entities =>
      { state with
          extracted_entities := merge_entities state.extracted_entities new_entities }
    | .error _ =>
      { state with extracted_entities := state.extracted_entities }

/-- The `required_fields` schema of `validation_node` (`agent.py` lines
299-304); intents outside the table have no required fields. -/
def required_fields (intent : String) : List String :=
  if intent == "schedule_exam" then ["student_id", "exam_name"]
  else if intent == "get_results" then ["student_id", "exam_name"]
  else if intent == "create_student" then
    ["first_name", "last_name", "student_id", "password"]
  else if intent == "list_scheduled_exams" then ["student_id"]
  else []

/-- Model of `validation_node` of `agent.py`: walk the intent schema in order and
collect every required field whose entity value is absent or empty. -/
def validation_node (state : AgentState) : AgentState :=
  let intent := state.current_intent.getD ""
  let missing := (required_fields intent).foldl
    (fun acc field =>
      if truthyStr (alistGet state.extracted_entities field) then acc
      else acc ++ [field]) []
  { state with missing_info := missing }

end Agent

namespace Agent

/-- One exam record as returned by the `list_exams` backend call. -/
structure ExamRec where
  EXAMNAME : String
  EXAMID : String
  EXAMSTATE : String
  deriving DecidableEq, Repr

/-- The exam-name lookup of `tool_execution_node` (`agent.py` lines
363-367): the first listed exam whose `EXAMNAME` equals the requested name. -/
def findExamId (exam_data : List ExamRec) (exam_name : String) :
    Option String :=
  (exam_data.find? (fun e => e.EXAMNAME == exam_name)).map ExamRec.EXAMID

/-- The backend responses consumed by the `schedule_exam` branch of
`tool_execution_node`: the registry-wrapped results of `list_exams`,
`search_student_by_student_id` and `schedule_exam`. -/
structure SchedBackend where
  listExamsStatus : Bool
  exams : List ExamRec
  searchStatus : Bool
  searchFound : Bool
  searchUserId : String
  scheduleResp : String
  deriving DecidableEq, Repr

/-- Outcome of the `schedule_exam` branch of `tool_execution_node`: the
`results` dict ends up holding a `"schedule"` entry, an `"error"` entry, or
nothing at all. -/
inductive SchedOutcome where
  | scheduled (payload : String)
  | failure (msg : String)
  | empty
  deriving DecidableEq, Repr

/-- Is the outcome a recorded failure (an `"error"` entry in `results`)? -/
def isFailureOutcome : SchedOutcome → Bool
  | .failure _ => true
  | _ => false

/-- The `schedule_exam` branch of `tool_execution_node` (`agent.py` lines
352-392), paired with the trace of backend tools invoked, in order:
list exams, resolve the exam name to an id, resolve the student id to a
user id, then schedule. -/
def scheduleFlow (b : SchedBackend) (_student_id exam_name : String) :
    SchedOutcome × List String :=
  if b.listExamsStatus then
    match findExamId b.exams exam_name with
    | some _exam_id =>
      if b.searchStatus && b.searchFound then
        (.scheduled b.scheduleResp,
         ["list_exams", "search_student_by_student_id", "schedule_exam"])
      else
        (.failure "Student not found",
         ["list_exams", "search_student_by_student_id"])
    | none =>
      (.failure ("Exam \x27" ++ exam_name ++ "\x27 not found"), ["list_exams"])
  else
    (.empty, ["list_exams"])

/-- Model of `run_langgraph_agent` of `agent.py`: everything inside the `try` block
(graph invocation and message plumbing) is abstracted as `invokeRes`; the
`except` branch renders a system-error message, so the entry point always
returns a string. -/
def run_langgraph_agent (invokeRes : Except String (List Msg)) : String :=
  match invokeRes with
  | .ok msgs =>
    match latestAssistant msgs with
    | some content => content
    | none => "I\x27m sorry, I couldn\x27t process that request."
  | .error e => "❌ System error: " ++ e

/-- Model of `reset_langgraph_session` of `agent.py`: the body only prints a line;
the per-thread state held by the LangGraph `MemorySaver` checkpointer is
not touched. -/
def reset_langgraph_session (checkpoints : List (String × AgentState))
    (_session_id : String) : List (String × AgentState) :=
  checkpoints

end Agent

-- ============================================================================
-- Model of exambuilder_agent.py (the v2 agent)
-- ============================================================================

namespace EBAgent

/-- The parts of a stored `tool_result` dict that
`classify_intent_and_extract_info` inspects after parsing. -/
structure EBToolRes where
  preserve_context : Bool := false
  partial_data : List (String × String) := []
  awaiting_exam_selection : Bool := false
  deriving DecidableEq, Repr

/-- The `missing_info` dict produced by `check_information_completeness`:
either a list of missing parameters with the user-facing prompt, or an
unknown-operation error. -/
inductive EBMissingInfo where
  | params (missing_params : List String) (message : String)
  | errorMsg (error : String)
  deriving DecidableEq, Repr

/-- The `ExamBuilderAgentState` of `exambuilder_agent.py`, restricted to the
fields the modelled nodes and the session store use. -/
structure EBState where
  messages : List Msg := []
  intent : Option String := none
  instructor_id : Option String := none
  tool_name : Option String := none
  tool_args : Option (List (String × String)) := none
  tool_result : Option EBToolRes := none
  missing_info : Option EBMissingInfo := none
  ready_to_execute : Bool := false
  cached_user_id : Option String := none
  cached_student_id : Option String := none
  deriving DecidableEq, Repr

/-- Python truthiness of the optional `tool_args` dict: `None` and the
empty dict are falsy. -/
def truthyArgs : Option (List (String × String)) → Bool
  | none => false
  | some l => !l.isEmpty

/-- The merge step of `classify_intent_and_extract_info` (lines 336-341):
start from the previous `tool_args` and overwrite a key only when the newly
extracted value is non-empty. -/
def merge_extracted (previous extracted : List (String × String)) :
    List (String × String) :=
  extracted.foldl
    (fun acc p => if p.2 != "" then alistSet acc p.1 p.2 else acc) previous

/-- The preserved-context step (lines 344-351): values remembered from a
failed operation fill in keys that are still absent or empty. -/
def apply_preserved (extracted preserved : List (String × String)) :
    List (String × String) :=
  preserved.foldl
    (fun acc kv =>
      if truthyStr (alistGet acc kv.1) then acc else alistSet acc kv.1 kv.2)
    extracted

/-- Model of `classify_intent_and_extract_info` of `exambuilder_agent.py` from the
point where the model response is parsed (`parsed` is the outcome of
`json.loads` plus field extraction; `.error` covers both the model call
raising inside the `try` and malformed JSON).  On failure the state gets
intent `"unknown"` and an empty `tool_args`. -/
def classify_intent_and_extract_info (state : EBState)
    (parsed : Except Unit (String × List (String × String))) : EBState :=
  match parsed with
  | .error _ => { state with intent := some "unknown", tool_args := some [] }
  | .ok (intent, extracted_raw) =>
    let extracted₁ :=
      if state.messages.length > 1 && truthyArgs state.tool_args then
        merge_extracted (state.tool_args.getD []) extracted_raw
      else extracted_raw
    let extracted₂ :=
      match state.tool_result with
      | some tr =>
        if state.messages.length > 1 && tr.preserve_context
            && !tr.partial_data.isEmpty then
          apply_preserved extracted₁ tr.partial_data
        else extracted₁
      | none => extracted₁
    { state with intent := some intent, tool_args := some extracted₂ }

/-- The `required_params` table of `check_information_completeness`
(`exambuilder_agent.py` lines 372-386). -/
def required_params (intent : String) : Option (List String) :=
  if intent == "list_exams" then some []
  else if intent == "get_exam" then some ["exam_id"]
  else if intent == "list_students" then some []
  else if intent == "get_student" then some ["user_id"]
  else if intent == "help" then some []
  else if intent == "status" then some []
  else if intent == "unsupported" then some []
  else if intent == "schedule_exam" then some []
  else if intent == "list_scheduled_exams" then some []
  else if intent == "get_exam_attempt" then some ["user_exam_id"]
  else if intent == "get_exam_attempt_by_student" then some ["student_id"]
  else if intent == "get_student_exam_statistics" then
    some ["student_id", "user_exam_id"]
  else if intent == "create_student" then some []
  else none

/-- The missing-parameter loop of `check_information_completeness` (lines
396-400): walk the required list in order and collect every parameter that
is absent from `tool_args` or has a falsy value. -/
def missing_params (required : List String)
    (tool_args : List (String × String)) : List String :=
  required.foldl
    (fun acc param =>
      if truthyStr (alistGet tool_args param) then acc else acc ++ [param])
    []

end EBAgent

-- ============================================================================
-- Model of exambuilder_tools.py schedule_exam
-- ============================================================================

namespace Tools

/-- An HTTP response as returned by `_make_request`: either a decoded JSON
payload, or the error dict built in the `except` branch.  Only the keys the
modelled callers inspect are kept (`status`, `scheduled_exams`, `error`);
the rest of the payload is carried opaquely. -/
structure MRResp where
  status : Bool := false
  scheduled_exams : List String := []
  error : Option String := none
  payload : String := ""
  deriving DecidableEq, Repr

/-- Result dict of `exambuilder_tools.schedule_exam`. -/
structure SchedToolRes where
  status : Bool := false
  message : String := ""
  returnCode : String := ""
  already_scheduled : Bool := false
  data : String := ""
  deriving DecidableEq, Repr

/-- The distinguished already-scheduled result of
`exambuilder_tools.schedule_exam` (lines 283-288 and 306-311). -/
def alreadyScheduledRes : SchedToolRes :=
  { status := false,
    message := "This student is already scheduled to take this exam.",
    returnCode := "STUDENT_ALREADY_SCHEDULED",
    already_scheduled := true }

/-- Model of `schedule_exam` of `exambuilder_tools.py` (lines 268-342).  `pre` is the
response of the `list_scheduled_exams` pre-check, `post1` the first POST and
`post2` the retried POST with the lowercase parameter name (the retry fires
only when the first error text mentions the parameter). -/
def schedule_exam (pre post1 post2 : MRResp) : SchedToolRes :=
  if pre.status && !pre.scheduled_exams.isEmpty then
    alreadyScheduledRes
  else
    let err1 := pyLower (post1.error.getD "")
    let result :=
      if post1.error.isSome
          && (strContains err1 "userId" || strContains err1 "parameter") then
        post2
      else post1
    match result.error with
    | some error_msg =>
      if strContains error_msg "STUDENT_ALREADY_SCHEDULED"
          || strContains (pyLower error_msg) "already scheduled" then
        alreadyScheduledRes
      else if strContains error_msg "INVALID_INSTRUCTOR" then
        { status := false, message := "The Instructor ID was invalid",
          returnCode := "INVALID_INSTRUCTOR" }
      else if strContains error_msg "ROUTE_PERMISSION_ERROR" then
        { status := false,
          message := "The Super User of this account did not grant permission to access this resource",
          returnCode := "ROUTE_PERMISSION_ERROR" }
      else if strContains error_msg "API_AUTHENTICATION_FAILED" then
        { status := false,
          message := "The API Key and API Secret combination was invalid",
          returnCode := "API_AUTHENTICATION_FAILED" }
      else
        { status := false,
          message := "Failed to schedule exam: " ++ error_msg,
          returnCode := "UNKNOWN_ERROR" }
    | none =>
      { status := true, message := "Exam scheduled successfully",
        data := result.payload }

end Tools

-- ============================================================================
-- Model of execute_tool (schedule_exam branch) and format_response
-- ============================================================================

namespace EBAgent

/-- The 32-character-hex check of
`execute_tool`: a 32-character lowercase hexadecimal token. -/
def isHex32 (s : String) : Bool :=
  let l := pyLower s
  l.length == 32
    && l.data.all (fun c => c.isDigit || (decide ('a' ≤ c) && decide (c ≤ 'f')))

/-- The backend responses consumed by the `schedule_exam` branch of
`execute_tool` in `exambuilder_agent.py`. -/
structure EBSchedBackend where
  listStatus : Bool
  exams : List Agent.ExamRec
  searchFound : Bool
  searchUserId : String
  searchFirst : String
  searchLast : String
  schedOut : Tools.SchedToolRes
  deriving DecidableEq, Repr

/-- The `tool_result` dict produced by the `schedule_exam` branch of
`execute_tool`, with the keys `format_response` inspects. -/
structure EBDispatchRes where
  status : Bool
  message : String
  suggestion : Option String := none
  next_step : Option String := none
  already_scheduled : Bool := false
  available_exams : List Agent.ExamRec := []
  student_name : String := ""
  exam_name : String := ""
  user_id : String := ""
  exam_id : String := ""
  deriving DecidableEq, Repr

/-- The final scheduling step of the `schedule_exam` branch of
`execute_tool` (`exambuilder_agent.py` lines 647-687): invoke the
`schedule_exam` tool and massage its result; an already-scheduled outcome
gets the `already_scheduled` flag and the informational message — but keeps
`status := false`. -/
def schedule_step (b : EBSchedBackend)
    (exam_name exam_id user_id student_name : String) : EBDispatchRes :=
  if b.schedOut.status then
    { status := true,
      message := "✅ Exam \x27" ++ exam_name ++ "\x27 scheduled successfully for "
        ++ student_name ++ "!",
      student_name := student_name, exam_name := exam_name,
      user_id := user_id, exam_id := exam_id }
  else
    let base : EBDispatchRes :=
      { status := false,
        message := "❌ Failed to schedule exam: " ++ b.schedOut.message,
        student_name := student_name, exam_name := exam_name,
        suggestion := some "Please try again or contact support" }
    if b.schedOut.returnCode == "STUDENT_ALREADY_SCHEDULED"
        || b.schedOut.already_scheduled then
      { base with
          already_scheduled := true,
          message := "ℹ️ Student " ++ student_name
            ++ " is already scheduled for \x27" ++ exam_name ++ "\x27",
          suggestion := some "You can check scheduled exams or choose a different exam" }
    else base

/-- The exam-name resolution at the head of the full scheduling path of
`execute_tool` (`exambuilder_agent.py` lines 598-606): `list_exams` is
invoked and, when it succeeds with a non-empty list, the first exam whose
name matches case-insensitively provides the exam id. -/
def ebFindExamId (b : EBSchedBackend) (exam_name : String) : Option String :=
  if b.listStatus && !b.exams.isEmpty then
    (b.exams.find? (fun e => pyLower e.EXAMNAME == pyLower exam_name)).map
      Agent.ExamRec.EXAMID
  else none

/-- The `schedule_exam` branch of `execute_tool`
(`exambuilder_agent.py` lines 545-698), paired with the trace of backend
tools invoked, in order: `list_exams` is always called first on the full
path (line 599), `search_student_by_student_id` only when the student id is
not a 32-hex user id (line 627), and the `schedule_exam` tool only after
both resolutions succeeded (line 648). -/
def execute_tool_schedule_exam_steps (b : EBSchedBackend)
    (exam_name student_id : Option String) : EBDispatchRes × List String :=
  if !truthyStr exam_name then
    (if b.listStatus then
      { status := true, message := "Please select an exam to schedule:",
        available_exams := b.exams.filter (fun e => e.EXAMSTATE == "Active"),
        next_step := some "Please specify which exam you\x27d like to schedule" }
    else
      { status := false, message := "Unable to retrieve available exams" },
     ["list_exams"])
  else if !truthyStr student_id then
    ({ status := false,
       message := "Please provide a student email or ID to schedule the exam",
       next_step := some "Please provide the student\x27s email address" },
     [])
  else
    let en := exam_name.getD ""
    let sid := student_id.getD ""
    match ebFindExamId b en with
    | none =>
      ({ status := false,
         message := "Could not find exam \x27" ++ en
           ++ "\x27. Please check the exam name and try again.",
         suggestion := some "Use \x27Show me available exams\x27 to see exact exam names" },
       ["list_exams"])
    | some exam_id =>
      if isHex32 sid then
        (schedule_step b en exam_id sid "Student",
         ["list_exams", "schedule_exam"])
      else if b.searchFound then
        (schedule_step b en exam_id b.searchUserId
           (pyStrip (b.searchFirst ++ " " ++ b.searchLast)),
         ["list_exams", "search_student_by_student_id", "schedule_exam"])
      else
        ({ status := false,
           message := "No student found with ID/email: " ++ sid,
           suggestion := some "Please check the student ID or create a new student account" },
         ["list_exams", "search_student_by_student_id"])

/-- The `tool_result` of the `schedule_exam` branch of `execute_tool`: the
first component of `execute_tool_schedule_exam_steps`. -/
def execute_tool_schedule_exam (b : EBSchedBackend)
    (exam_name student_id : Option String) : EBDispatchRes :=
  (execute_tool_schedule_exam_steps b exam_name student_id).1

/-- The `schedule_exam` case of `format_response`
(`exambuilder_agent.py` lines 1549-1568).  Note the placement of the
informational `already_scheduled` branch inside the `status`-true arm. -/
def format_response_schedule_exam (tr : EBDispatchRes) : String :=
  if tr.status then
    if tr.message != "" && strContains tr.message "Please select an exam to schedule:" then
      "✅ " ++ tr.message ++ "\n\n" ++ "**Available Active Exams**:\n"
        ++ String.join (tr.available_exams.map
              (fun e => "• **" ++ e.EXAMNAME ++ "**\n"))
        ++ "\n📋 **Next Step**: "
        ++ tr.next_step.getD "Please specify which exam you want to schedule"
    else if truthyStr tr.next_step then
      "✅ " ++ tr.message ++ "\n\n📋 **Next Step**: " ++ tr.next_step.getD ""
    else if tr.already_scheduled then
      "ℹ️ " ++ tr.message ++ "\n\n💡 **Suggestion**: " ++ tr.suggestion.getD ""
    else
      "✅ " ++ tr.message
  else
    "❌ " ++ tr.message ++ "\n\n"
      ++ (if truthyStr tr.suggestion then
            "💡 **Suggestion**: " ++ tr.suggestion.getD ""
          else "")

end EBAgent

-- ============================================================================
-- Session store and entry point of exambuilder_agent.py; tool registry
-- ============================================================================

namespace EBAgent

/-- The fresh per-session state created by `get_session_state`
(`exambuilder_agent.py` lines 1797-1808): everything empty. -/
def freshSessionState : EBState := {}

/-- Model of `get_session_state`: look the session up in the module-level
`session_states` dict, creating the state lazily on first access.  Returns
the state together with the (possibly extended) store. -/
def get_session_state (store : List (String × EBState))
    (session_id : String) : EBState × List (String × EBState) :=
  match alistGet store session_id with
  | some st => (st, store)
  | none => (freshSessionState, alistSet store session_id freshSessionState)

/-- Model of `reset_conversation`: `if session_id in session_states: del
session_states[session_id]`. -/
def reset_conversation (store : List (String × EBState))
    (session_id : String) : List (String × EBState) :=
  if (alistGet store session_id).isSome then
    store.filter (fun p => p.1 != session_id)
  else store

/-- The compiled v2 workflow applied to one turn.  `instructorNode` is
`get_instructor_id_node` (which traps its own exceptions and so is total),
`llm` is the classifier model call — made *outside* the `try` block of
`classify_intent_and_extract_info`, so an exception there propagates out of
the whole invocation — `parse` is the JSON parse made inside the `try`, and
`rest` abstracts `check_information_completeness` / `execute_tool` /
`format_response`, which trap their own exceptions. -/
def workflow_invoke (state : EBState) (instructorNode : EBState → EBState)
    (llm : Except Unit String)
    (parse : String → Except Unit (String × List (String × String)))
    (rest : EBState → EBState) : Except Unit EBState :=
  let s1 := instructorNode state
  match llm with
  | .error e => .error e
  | .ok content =>
    .ok (rest (classify_intent_and_extract_info s1 (parse content)))

/-- Model of `run_exambuilder_agent_v2` (`exambuilder_agent.py` lines 1811-1829):
fetch the session state, append the user message, invoke the workflow
*without any try/except*, store the result and return the text of the last
message.  An exception raised inside the workflow propagates to the
caller. -/
def run_exambuilder_agent_v2 (store : List (String × EBState))
    (session_id user_input : String)
    (instructorNode rest : EBState → EBState)
    (llm : Except Unit String)
    (parse : String → Except Unit (String × List (String × String))) :
    Except Unit (String × List (String × EBState)) :=
  let stPair := get_session_state store session_id
  let st1 := { stPair.1 with
    messages := stPair.1.messages ++ [{ role := Role.user, content := user_input }] }
  match workflow_invoke st1 instructorNode llm parse rest with
  | .error e => .error e
  | .ok result =>
    .ok ((result.messages.map Msg.content).getLastD "",
         alistSet stPair.2 session_id result)

end EBAgent

namespace Registry

/-- A registered tool: its required-parameter list (from the generated
metadata) and the underlying callable, which may raise. -/
structure ToolSpec where
  required_parameters : List String
  impl : List (String × String) → Except String String

/-- The dict returned by `DynamicToolRegistry.execute_tool`: a boolean
`status` key with either a `data` payload or an `error` message. -/
inductive ExecResult where
  | ok (data : String)
  | err (error : String)
  deriving DecidableEq, Repr

/-- Model of `DynamicToolRegistry.execute_tool` (`tool_registry.py` lines 203-230),
paired with a `Bool` recording whether the underlying tool function was
invoked.  Unknown tool names and missing required parameters are rejected
before the call; an exception from the tool is caught and reported as an
error string; otherwise the result is wrapped under `data`. -/
def execute_tool (tools : List (String × ToolSpec)) (name : String)
    (kwargs : List (String × String)) : ExecResult × Bool :=
  match alistGet tools name with
  | none => (.err ("Tool \x27" ++ name ++ "\x27 not found"), false)
  | some tool =>
    let missingParams := tool.required_parameters.filter
      (fun param => (alistGet kwargs param).isNone)
    if !missingParams.isEmpty then
      (.err ("Missing required parameters: "
             ++ String.intercalate ", " missingParams), false)
    else
      match tool.impl kwargs with
      | .error e => (.err ("Tool execution error: " ++ e), true)
      | .ok result => (.ok result, true)

end Registry

-- ============================================================================
-- C1: continuation keeps the prior intent
-- ============================================================================

/-- A v2-agent continuation turn: the create-student flow is mid-way (the
previous assistant message asked for the last name and the stored
`tool_result` records the pending `last_name` step), the session records
the prior intent `create_student`, and the new utterance is the bare word
"David". -/
def c1V2State : EBAgent.EBState :=
  { messages := [{ role := Role.user, content := "I want to create an account" },
                 { role := Role.assistant,
                   content := "Great! Hi Tim! What\x27s your last name?" },
                 { role := Role.user, content := "David" }],
    intent := some "create_student",
    tool_args := some [("first_name", "Tim")],
    tool_result := some { preserve_context := false,
                          partial_data := [("step", "last_name"),
                                           ("first_name", "Tim")] } }

/-- C1 counterexample: on that continuation turn the v2 classifier
(`classify_intent_and_extract_info`) adopts whatever intent its fresh model
classification parses to — here `list_exams` — instead of returning the
prior intent `create_student`; no code path of the v2 classifier keeps the
prior intent for a short continuation utterance. -/
theorem c1_counterexample :
    c1V2State.intent = some "create_student"
    ∧ (EBAgent.classify_intent_and_extract_info c1V2State
        (.ok ("list_exams", []))).intent = some "list_exams"
    ∧ some "list_exams" ≠ some "create_student" :=
  ⟨rfl, rfl, by decide⟩

/-- C1 (amended): whenever the session records a previous (non-empty)
intent and a non-empty list of missing fields, and the new utterance is
short (at most three words) or of simple alphanumeric shape,
`intent_classifier_node` of `agent.py` returns the state with the same
intent as the prior turn and does not consult the language model at all;
the v2 classifier `classify_intent_and_extract_info`, by contrast,
classifies afresh on every turn and sets the intent to whatever its model
output parses to, whatever the prior intent and pending fields were. -/
theorem c1_amended_continuation_intent :
    (∀ (state : Agent.AgentState) (m intent : String)
        (llm : Except Unit String),
        latestHuman state.messages = some m →
        state.current_intent = some intent →
        intent ≠ "" →
        state.missing_info ≠ [] →
        ((pyWords m).length ≤ 3
          ∨ pyIsAlnum (pyRemoveAll (pyRemoveAll (pyRemoveAll m ' ') ',') '.')
              = true) →
        Agent.intent_classifier_node state llm = (state, false))
    ∧ (∀ (state : EBAgent.EBState) (intent : String)
        (extracted : List (String × String)),
        (EBAgent.classify_intent_and_extract_info state
          (.ok (intent, extracted))).intent = some intent) := by
  constructor
  · intro state m intent llm hmsg hintent hne hmiss hsimple
    have h1 : truthyStr state.current_intent = true := by
      rw [hintent]; simp [truthyStr, hne]
    have h2 : (!state.missing_info.isEmpty) = true := by
      cases hmi : state.missing_info with
      | nil => exact absurd hmi hmiss
      | cons a l => rfl
    have h3 : Agent.simple_patterns m = true := by
      unfold Agent.simple_patterns
      rcases hsimple with h | h
      · simp [decide_eq_true h]
      · simp [h]
    simp [Agent.intent_classifier_node, hmsg, h1, h2, h3]
  · intro state intent extracted
    rfl

/-- A turn in the middle of account creation: the assistant asked for the
last name and the user answered with the bare word "David". -/
def c1State : Agent.AgentState :=
  { messages := [{ role := Role.assistant, content := "What is your last name?" },
                 { role := Role.user, content := "David" }],
    current_intent := some "create_student",
    missing_info := ["last_name"],
    extracted_entities := [("first_name", "Tim")] }

/-- C1 witness: on the concrete continuation turn the `agent.py` classifier
keeps `create_student` and ignores a model oracle that would say otherwise,
while the v2 classifier on the same kind of turn adopts the model output. -/
theorem c1_witness :
    Agent.intent_classifier_node c1State (.ok "list_exams") = (c1State, false)
    ∧ (EBAgent.classify_intent_and_extract_info c1V2State
        (.ok ("create_student", [("last_name", "David")]))).intent
      = some "create_student" :=
  ⟨c1_amended_continuation_intent.1 c1State "David" "create_student"
      (.ok "list_exams") (by decide) rfl (by decide) (by decide)
      (Or.inl (by decide)),
   c1_amended_continuation_intent.2 c1V2State "create_student"
      [("last_name", "David")]⟩

-- ============================================================================
-- C2: slots no-regression across turns
-- ============================================================================

/-- A turn where the extractor returned an empty value for an
already-known field. -/
def c2State : Agent.AgentState :=
  { messages := [{ role := Role.user, content := "my first name is" }],
    current_intent := some "create_student",
    missing_info := [],
    extracted_entities := [("first_name", "Tim")] }

/-- C2 counterexample: before the turn the slot `first_name` holds `"Tim"`;
the extraction of this turn produces only the *empty* value for that field
(no new non-empty value), yet after the turn the stored value is `""` —
the `dict.update` merge of `agent.py` overwrites with empty extracted values. -/
theorem c2_counterexample :
    alistGet c2State.extracted_entities "first_name" = some "Tim"
    ∧ alistGet (Agent.entity_extractor_node c2State
        (.ok [("first_name", "")])).extracted_entities "first_name"
      = some "" := by
  exact ⟨rfl, rfl⟩

/-- C2 (amended): a slot value survives a turn unless the extraction
produced a value for that exact field — in the v2 agent only a *non-empty*
new value can overwrite, while the merge of `agent.py` overwrites with any
produced value, an empty one included. -/
theorem c2_amended_no_regression :
    (∀ (prev new : List (String × String)) (k : String),
        alistGet new k = none →
        alistGet (Agent.merge_entities prev new) k = alistGet prev k)
    ∧ (∀ (prev new : List (String × String)) (k : String),
        (∀ p ∈ new, p.1 = k → p.2 = "") →
        alistGet (EBAgent.merge_extracted prev new) k = alistGet prev k) := by
  constructor
  · intro prev new k h
    exact alistGet_alistUpdate_of_not_mem new prev k h
  · intro prev new k h
    induction new generalizing prev with
    | nil => rfl
    | cons p rest ih =>
      have hrest : ∀ q ∈ rest, q.1 = k → q.2 = "" :=
        fun q hq => h q (List.mem_cons_of_mem _ hq)
      have step : ∀ d, EBAgent.merge_extracted d (p :: rest)
          = EBAgent.merge_extracted
              (if p.2 != "" then alistSet d p.1 p.2 else d) rest := fun d => rfl
      by_cases hval : p.2 = ""
      · rw [step]
        have : (p.2 != "") = false := by simp [hval]
        rw [this]
        simpa using ih prev hrest
      · have hk : ¬ (p.1 = k) := fun hh =>
          hval (h p (List.mem_cons_self _ _) hh)
        rw [step]
        have : (p.2 != "") = true := by simp [hval]
        rw [this]
        simp only [if_true]
        rw [ih (alistSet prev p.1 p.2) hrest, alistGet_alistSet]
        have hne : ¬ (k = p.1) := fun hh => hk hh.symm
        simp [hne]

/-- C2 witness: keys untouched by the turn keep their value under
both merges. -/
theorem c2_witness :
    alistGet (Agent.merge_entities [("first_name", "Tim")]
        [("last_name", "Doe")]) "first_name"
      = alistGet [("first_name", "Tim")] "first_name"
    ∧ alistGet (EBAgent.merge_extracted [("first_name", "Tim")]
        [("first_name", "")]) "first_name"
      = alistGet [("first_name", "Tim")] "first_name" :=
  ⟨c2_amended_no_regression.1 [("first_name", "Tim")] [("last_name", "Doe")]
      "first_name" rfl,
   c2_amended_no_regression.2 [("first_name", "Tim")] [("first_name", "")]
      "first_name" (by decide)⟩

-- ============================================================================
-- C3: extraction failure must not discard prior slots
-- ============================================================================

/-- A v2-agent turn in the middle of account creation, with one slot
already accumulated, whose extractor output fails to parse. -/
def c3State : EBAgent.EBState :=
  { messages := [{ role := Role.user, content := "create an account" },
                 { role := Role.assistant, content := "What\x27s your last name?" },
                 { role := Role.user, content := "David" }],
    intent := some "create_student",
    tool_args := some [("first_name", "Tim")] }

/-- C3 counterexample: on a parse failure the v2 agent resets `tool_args`
to the empty dict, discarding the previously known `first_name` slot —
contradicting "on error, return the prior slots unchanged". -/
theorem c3_counterexample :
    c3State.tool_args = some [("first_name", "Tim")]
    ∧ (EBAgent.classify_intent_and_extract_info c3State
        (.error ())).tool_args = some [] := ⟨rfl, rfl⟩

/-- C3 (amended): on extraction failure the extractor node of `agent.py`
keeps the previous entities unchanged, while the combined
classify-and-extract node instead resets the slots to the empty dict (with
intent `"unknown"`). -/
theorem c3_amended_extraction_failure :
    (∀ (s : Agent.AgentState) (e : Unit),
        (Agent.entity_extractor_node s (.error e)).extracted_entities
          = s.extracted_entities)
    ∧ (∀ (s : EBAgent.EBState) (e : Unit),
        (EBAgent.classify_intent_and_extract_info s (.error e)).tool_args
          = some []
        ∧ (EBAgent.classify_intent_and_extract_info s (.error e)).intent
          = some "unknown") := by
  constructor
  · intro s e
    unfold Agent.entity_extractor_node
    cases hl : latestHuman s.messages <;> rfl
  · intro s e
    exact ⟨rfl, rfl⟩

-- ============================================================================
-- C4: the validator returns exactly the missing schema fields in order
-- ============================================================================

/-- C4: in both agents the validator is a pure computation of the intent
schema: it returns exactly the required fields whose slot value is absent
or empty, in schema order, and (for `agent.py`) changes nothing in the
state but `missing_info`. -/
theorem c4_validator_schema_filter :
    (∀ s : Agent.AgentState, Agent.validation_node s =
      { s with missing_info :=
          ((Agent.required_fields (s.current_intent.getD "")).filter
            (fun f => !truthyStr (alistGet s.extracted_entities f))) })
    ∧ (∀ (intent : String) (required : List String)
        (tool_args : List (String × String)),
        EBAgent.required_params intent = some required →
        EBAgent.missing_params required tool_args
          = required.filter (fun p => !truthyStr (alistGet tool_args p))) := by
  constructor
  · intro s
    unfold Agent.validation_node
    dsimp only
    rw [foldl_append_filter]
    simp
  · intro intent required tool_args _h
    unfold EBAgent.missing_params
    rw [foldl_append_filter]
    simp

/-- C4 witness: for the `get_student_exam_statistics` schema with only the
student id supplied, exactly the `user_exam_id` field is reported missing. -/
theorem c4_witness :
    EBAgent.missing_params ["student_id", "user_exam_id"]
        [("student_id", "a@b.com")]
      = (["student_id", "user_exam_id"]).filter
          (fun p => !truthyStr (alistGet [("student_id", "a@b.com")] p)) :=
  c4_validator_schema_filter.2 "get_student_exam_statistics"
    ["student_id", "user_exam_id"] [("student_id", "a@b.com")] rfl

-- ============================================================================
-- C5: multi-step dispatch short-circuits and identifies the failing step
-- ============================================================================

/-- A backend where the initial `list_exams` call itself fails. -/
def c5Backend : Agent.SchedBackend :=
  { listExamsStatus := false, exams := [], searchStatus := true,
    searchFound := true, searchUserId := "u1", scheduleResp := "ok" }

/-- C5 counterexample: when the `list_exams` call fails, later steps are
indeed skipped, but the dispatch result of `agent.py` is *empty* (no
`"error"` entry in `results`), not a failure identifying the failed step. -/
theorem c5_counterexample :
    c5Backend.listExamsStatus = false
    ∧ Agent.scheduleFlow c5Backend "a@b.com" "Serengeti Practice Exam"
        = (Agent.SchedOutcome.empty, ["list_exams"])
    ∧ Agent.isFailureOutcome
        (Agent.scheduleFlow c5Backend "a@b.com" "Serengeti Practice Exam").1
      = false :=
  ⟨rfl, rfl, rfl⟩

/-- C5 (amended): neither schedule dispatch ever runs a later step once an
earlier one fails.  In `agent.py`: an unresolved exam name stops after
`list_exams` with the exam-not-found failure, a failed student lookup stops
before scheduling with the student-not-found failure, and the scheduling
call runs exactly when listing succeeded, the exam name resolved and the
student was found — but an outright failure of the `list_exams` call yields
an empty result instead of a failure.  In the v2 `execute_tool` dispatch:
an unresolved exam name (a failed listing included) stops after
`list_exams` with the could-not-find-exam failure, a failed student lookup
stops before scheduling with the no-student-found failure, and the
scheduling tool is invoked exactly when the exam name resolved and the
student resolved (directly as a 32-hex user id, or via the lookup); the
trace-carrying model agrees with the dispatch result model on every
input. -/
theorem c5_amended_short_circuit
    (b : Agent.SchedBackend) (student_id exam_name : String) :
    (b.listExamsStatus = false →
      Agent.scheduleFlow b student_id exam_name
        = (.empty, ["list_exams"]))
    ∧ (b.listExamsStatus = true →
      Agent.findExamId b.exams exam_name = none →
      Agent.scheduleFlow b student_id exam_name
        = (.failure ("Exam \x27" ++ exam_name ++ "\x27 not found"),
           ["list_exams"]))
    ∧ (∀ eid, b.listExamsStatus = true →
      Agent.findExamId b.exams exam_name = some eid →
      (b.searchStatus && b.searchFound) = false →
      Agent.scheduleFlow b student_id exam_name
        = (.failure "Student not found",
           ["list_exams", "search_student_by_student_id"]))
    ∧ (∀ eid, b.listExamsStatus = true →
      Agent.findExamId b.exams exam_name = some eid →
      (b.searchStatus && b.searchFound) = true →
      Agent.scheduleFlow b student_id exam_name
        = (.scheduled b.scheduleResp,
           ["list_exams", "search_student_by_student_id", "schedule_exam"]))
    ∧ ("schedule_exam" ∈ (Agent.scheduleFlow b student_id exam_name).2 ↔
        b.listExamsStatus = true
        ∧ (Agent.findExamId b.exams exam_name).isSome = true
        ∧ b.searchStatus = true ∧ b.searchFound = true)
    ∧ (∀ (v : EBAgent.EBSchedBackend) (en sid : String),
        en ≠ "" → sid ≠ "" →
        EBAgent.ebFindExamId v en = none →
        EBAgent.execute_tool_schedule_exam_steps v (some en) (some sid)
          = ({ status := false,
               message := "Could not find exam \x27" ++ en
                 ++ "\x27. Please check the exam name and try again.",
               suggestion :=
                 some "Use \x27Show me available exams\x27 to see exact exam names" },
             ["list_exams"]))
    ∧ (∀ (v : EBAgent.EBSchedBackend) (en sid eid : String),
        en ≠ "" → sid ≠ "" →
        EBAgent.ebFindExamId v en = some eid →
        EBAgent.isHex32 sid = false →
        v.searchFound = false →
        EBAgent.execute_tool_schedule_exam_steps v (some en) (some sid)
          = ({ status := false,
               message := "No student found with ID/email: " ++ sid,
               suggestion :=
                 some "Please check the student ID or create a new student account" },
             ["list_exams", "search_student_by_student_id"]))
    ∧ (∀ (v : EBAgent.EBSchedBackend) (en sid : String),
        en ≠ "" → sid ≠ "" →
        ("schedule_exam"
            ∈ (EBAgent.execute_tool_schedule_exam_steps v (some en) (some sid)).2
          ↔ (EBAgent.ebFindExamId v en).isSome = true
            ∧ (EBAgent.isHex32 sid = true ∨ v.searchFound = true)))
    ∧ (∀ (v : EBAgent.EBSchedBackend) (en sid : Option String),
        (EBAgent.execute_tool_schedule_exam_steps v en sid).1
          = EBAgent.execute_tool_schedule_exam v en sid) := by
  refine ⟨?_, ?_, ?_, ?_, ?_, ?_, ?_, ?_, ?_⟩
  · intro h1
    simp [Agent.scheduleFlow, h1]
  · intro h1 h2
    simp [Agent.scheduleFlow, h1, h2]
  · intro eid h1 h2 h3
    simp [Agent.scheduleFlow, h1, h2, h3]
  · intro eid h1 h2 h3
    simp [Agent.scheduleFlow, h1, h2, h3]
  · cases h1 : b.listExamsStatus
    · simp [Agent.scheduleFlow, h1]
    · cases h2 : Agent.findExamId b.exams exam_name with
      | none => simp [Agent.scheduleFlow, h1, h2]
      | some eid =>
        cases h3 : b.searchStatus <;> cases h4 : b.searchFound <;>
          simp [Agent.scheduleFlow, h1, h2, h3, h4]
  · intro v en sid hen hsid hfind
    simp [EBAgent.execute_tool_schedule_exam_steps, truthyStr, hen, hsid,
      hfind]
  · intro v en sid eid hen hsid hfind hhex hfound
    simp [EBAgent.execute_tool_schedule_exam_steps, truthyStr, hen, hsid,
      hfind, hhex, hfound]
  · intro v en sid hen hsid
    cases hfind : EBAgent.ebFindExamId v en with
    | none =>
      simp [EBAgent.execute_tool_schedule_exam_steps, truthyStr, hen, hsid,
        hfind]
    | some eid =>
      cases hhex : EBAgent.isHex32 sid
      · cases hfound : v.searchFound <;>
          simp [EBAgent.execute_tool_schedule_exam_steps, truthyStr, hen,
            hsid, hfind, hhex, hfound]
      · simp [EBAgent.execute_tool_schedule_exam_steps, truthyStr, hen, hsid,
          hfind, hhex]
  · intro v en sid
    rfl

/-- A backend whose exam list does not contain the requested name. -/
def c5NoExamBackend : Agent.SchedBackend :=
  { listExamsStatus := true,
    exams := [{ EXAMNAME := "Serengeti Practice Exam", EXAMID := "e1",
                EXAMSTATE := "Active" }],
    searchStatus := true, searchFound := true, searchUserId := "u1",
    scheduleResp := "ok" }

/-- A backend where the student lookup reports not-found. -/
def c5NoStudentBackend : Agent.SchedBackend :=
  { listExamsStatus := true,
    exams := [{ EXAMNAME := "Serengeti Practice Exam", EXAMID := "e1",
                EXAMSTATE := "Active" }],
    searchStatus := true, searchFound := false, searchUserId := "",
    scheduleResp := "ok" }

/-- A v2 backend where the exam name resolves but the student lookup
reports not-found. -/
def c5V2NoStudentBackend : EBAgent.EBSchedBackend :=
  { listStatus := true,
    exams := [{ EXAMNAME := "Serengeti Practice Exam", EXAMID := "e1",
                EXAMSTATE := "Active" }],
    searchFound := false, searchUserId := "", searchFirst := "",
    searchLast := "", schedOut := {} }

/-- C5 witness: the identified failure cases at concrete backends of both
dispatches — the scheduling step is never reached. -/
theorem c5_witness :
    Agent.scheduleFlow c5NoExamBackend "a@b.com" "Nope"
      = (.failure ("Exam \x27" ++ "Nope" ++ "\x27 not found"), ["list_exams"])
    ∧ Agent.scheduleFlow c5NoStudentBackend "a@b.com" "Serengeti Practice Exam"
      = (.failure "Student not found",
         ["list_exams", "search_student_by_student_id"])
    ∧ EBAgent.execute_tool_schedule_exam_steps c5V2NoStudentBackend
        (some "Serengeti Practice Exam") (some "tim@example.com")
      = ({ status := false,
           message := "No student found with ID/email: " ++ "tim@example.com",
           suggestion :=
             some "Please check the student ID or create a new student account" },
         ["list_exams", "search_student_by_student_id"]) :=
  ⟨(c5_amended_short_circuit c5NoExamBackend "a@b.com" "Nope").2.1 rfl
      (by decide),
   (c5_amended_short_circuit c5NoStudentBackend "a@b.com"
      "Serengeti Practice Exam").2.2.1 "e1" rfl (by decide) rfl,
   (c5_amended_short_circuit c5Backend "x" "y").2.2.2.2.2.2.1
      c5V2NoStudentBackend "Serengeti Practice Exam" "tim@example.com" "e1"
      (by decide) (by decide) (by decide) (by decide) rfl⟩

-- ============================================================================
-- C6: the already-scheduled outcome and how it is rendered
-- ============================================================================

/-- The result of `exambuilder_tools.schedule_exam` when the POST reports
that the student is already scheduled. -/
def c6SchedToolRes : Tools.SchedToolRes :=
  Tools.schedule_exam
    { status := true, scheduled_exams := [] }
    { error := some "STUDENT_ALREADY_SCHEDULED: student already scheduled for this exam" }
    { error := some "STUDENT_ALREADY_SCHEDULED: student already scheduled for this exam" }

/-- A backend for the full `schedule_exam` dispatch in which the exam name
resolves, the student lookup succeeds and the scheduling call reports
already-scheduled. -/
def c6Backend : EBAgent.EBSchedBackend :=
  { listStatus := true,
    exams := [{ EXAMNAME := "Serengeti Practice Exam", EXAMID := "e1",
                EXAMSTATE := "Active" }],
    searchFound := true, searchUserId := "u123",
    searchFirst := "Tim", searchLast := "Doe",
    schedOut := c6SchedToolRes }

/-- The `tool_result` the dispatch produces on that backend. -/
def c6DispatchRes : EBAgent.EBDispatchRes :=
  EBAgent.execute_tool_schedule_exam c6Backend
    (some "Serengeti Practice Exam") (some "tim@example.com")

/-- C6: the already-scheduled outcome does carry the distinguished
discriminant (`returnCode = STUDENT_ALREADY_SCHEDULED`, the
`already_scheduled` flag) all the way into the dispatch result — but that
result has `status = false`, and the informational `ℹ️` branch of `format_response`
branch sits inside the `status`-true arm, so the rendered message uses the
`❌` failure template rather than the informational template. -/
theorem c6_already_scheduled_discriminant_and_rendering :
    c6SchedToolRes.returnCode = "STUDENT_ALREADY_SCHEDULED"
    ∧ c6SchedToolRes.already_scheduled = true
    ∧ c6DispatchRes.already_scheduled = true
    ∧ c6DispatchRes.status = false
    ∧ EBAgent.format_response_schedule_exam c6DispatchRes
      = "❌ ℹ️ Student Tim Doe is already scheduled for \x27Serengeti Practice Exam\x27\n\n💡 **Suggestion**: You can check scheduled exams or choose a different exam" := by
  refine ⟨rfl, rfl, ?_, ?_, ?_⟩ <;> decide

-- ============================================================================
-- C7: classifier failure fallback intent
-- ============================================================================

/-- A fresh v2-agent turn whose combined classify-and-extract call fails. -/
def c7State : EBAgent.EBState :=
  { messages := [{ role := Role.user, content := "show me my results" }] }

/-- C7 counterexample: on a classification failure the v2 agent sets the
intent to `"unknown"`, not to the reserved `"help"` intent that the claim
requires. -/
theorem c7_counterexample :
    (EBAgent.classify_intent_and_extract_info c7State (.error ())).intent
      = some "unknown"
    ∧ some "unknown" ≠ some "help" :=
  ⟨rfl, by decide⟩

/-- C7 (amended): no exception escapes either classification step, but the
fallback intents differ: when its model call raises (and the continuation
shortcut did not fire), the classifier of `agent.py` falls back to `"help"`,
while the combined classifier of the v2 agent falls back to `"unknown"`. -/
theorem c7_amended_classifier_fallback :
    (∀ (s : Agent.AgentState) (m : String) (e : Unit),
        latestHuman s.messages = some m →
        (truthyStr s.current_intent && !s.missing_info.isEmpty
          && Agent.simple_patterns m) = false →
        (Agent.intent_classifier_node s (.error e)).1.current_intent
          = some "help"
        ∧ (Agent.intent_classifier_node s (.error e)).2 = true)
    ∧ (∀ (s : EBAgent.EBState) (e : Unit),
        (EBAgent.classify_intent_and_extract_info s (.error e)).intent
          = some "unknown") := by
  constructor
  · intro s m e hm hcond
    constructor <;> simp [Agent.intent_classifier_node, hm, hcond]
  · intro s e
    rfl

/-- A fresh `agent.py` turn with no recorded intent. -/
def c7AgentState : Agent.AgentState :=
  { messages := [{ role := Role.user,
                   content := "please show all certification exams available right now" }],
    current_intent := none,
    missing_info := [],
    extracted_entities := [] }

/-- C7 witness: on a concrete fresh turn whose model call raises,
`agent.py` sets the intent to `"help"` after having consulted the model. -/
theorem c7_witness :
    (Agent.intent_classifier_node c7AgentState (.error ())).1.current_intent
      = some "help"
    ∧ (Agent.intent_classifier_node c7AgentState (.error ())).2 = true :=
  c7_amended_classifier_fallback.1 c7AgentState
    "please show all certification exams available right now" () rfl rfl

-- ============================================================================
-- C8: no exception escapes the turn entry point
-- ============================================================================

/-- C8 counterexample: if the classifier model call raises, the exception
propagates out of `run_exambuilder_agent_v2` — it is made outside the `try`
block of `classify_intent_and_extract_info`, and the entry point has no
try/except of its own. -/
theorem c8_counterexample :
    EBAgent.run_exambuilder_agent_v2 [] "default" "show me my scheduled exams"
      id id (.error ()) (fun _ => .error ()) = .error () := rfl

/-- C8 (amended): `run_langgraph_agent` traps every failure of the graph
invocation and returns a rendered system-error string, but
`run_exambuilder_agent_v2` propagates an exception raised by the
model call of the classifier to its caller. -/
theorem c8_amended_entry_point_exceptions :
    (∀ e : String,
        Agent.run_langgraph_agent (.error e) = "❌ System error: " ++ e)
    ∧ (∀ (store : List (String × EBAgent.EBState))
        (session_id user_input : String)
        (instructorNode rest : EBAgent.EBState → EBAgent.EBState)
        (parse : String → Except Unit (String × List (String × String)))
        (e : Unit),
        EBAgent.run_exambuilder_agent_v2 store session_id user_input
          instructorNode rest (.error e) parse = .error e) := by
  constructor
  · intro e; rfl
  · intro store session_id user_input instructorNode rest parse e; rfl

-- ============================================================================
-- C9: session reset and lazy creation
-- ============================================================================

/-- A LangGraph checkpoint store with accumulated state for `"default"`. -/
def c9Checkpoints : List (String × Agent.AgentState) :=
  [("default",
    { messages := [{ role := Role.user,
                     content := "register me for the Serengeti Practice Exam" }],
      current_intent := some "schedule_exam",
      missing_info := ["student_id"],
      extracted_entities := [("exam_name", "Serengeti Practice Exam")] })]

/-- C9 counterexample: `reset_langgraph_session` changes nothing — after
resetting `"default"`, the stored state still carries the prior intent
`schedule_exam`, its slots and its history, so the next turn does not start
from a cleared session. -/
theorem c9_counterexample :
    Agent.reset_langgraph_session c9Checkpoints "default" = c9Checkpoints
    ∧ (alistGet (Agent.reset_langgraph_session c9Checkpoints "default")
        "default").map Agent.AgentState.current_intent
      = some (some "schedule_exam") :=
  ⟨rfl, rfl⟩

/-- C9 (amended): the `reset_conversation` operation of the v2 agent deletes exactly the
given session — its entry is gone, every other session id is untouched, and
a missing session is lazily recreated as the fresh empty state — whereas
the `reset_langgraph_session` of `agent.py` performs no state change at all. -/
theorem c9_amended_reset :
    (∀ (store : List (String × EBAgent.EBState)) (sid : String),
        alistGet (EBAgent.reset_conversation store sid) sid = none)
    ∧ (∀ (store : List (String × EBAgent.EBState)) (sid sid' : String),
        ¬ sid' = sid →
        alistGet (EBAgent.reset_conversation store sid) sid'
          = alistGet store sid')
    ∧ (∀ (store : List (String × EBAgent.EBState)) (sid : String),
        alistGet store sid = none →
        (EBAgent.get_session_state store sid).1 = EBAgent.freshSessionState)
    ∧ (∀ (cp : List (String × Agent.AgentState)) (sid : String),
        Agent.reset_langgraph_session cp sid = cp) := by
  refine ⟨?_, ?_, ?_, ?_⟩
  · intro store sid
    unfold EBAgent.reset_conversation
    cases h : (alistGet store sid).isSome
    · simpa [h] using Option.not_isSome_iff_eq_none.mp (by simp [h])
    · simpa [h] using alistGet_filter_self store sid
  · intro store sid sid' hne
    unfold EBAgent.reset_conversation
    cases h : (alistGet store sid).isSome
    · simp [h]
    · simpa [h] using alistGet_filter_ne store sid sid' hne
  · intro store sid h
    unfold EBAgent.get_session_state
    rw [h]
  · intro cp sid
    rfl

/-- A populated v2 session store with two sessions. -/
def c9Store : List (String × EBAgent.EBState) :=
  [("a", { messages := [{ role := Role.user, content := "hi" }],
           intent := some "help" }),
   ("b", { messages := [{ role := Role.user, content := "list exams" }],
           intent := some "list_exams" })]

/-- C9 witness: resetting session `"a"` leaves session `"b"` intact, and a
session id never seen before starts from the fresh empty state. -/
theorem c9_witness :
    alistGet (EBAgent.reset_conversation c9Store "a") "b"
      = alistGet c9Store "b"
    ∧ (EBAgent.get_session_state c9Store "zz").1
      = EBAgent.freshSessionState :=
  ⟨c9_amended_reset.2.1 c9Store "a" "b" (by decide),
   c9_amended_reset.2.2.1 c9Store "zz" rfl⟩

-- ============================================================================
-- C10: the tool registry execute_tool contract
-- ============================================================================

/-- C10: `DynamicToolRegistry.execute_tool` always returns a status-tagged
result and never raises: an unknown name or missing required parameters are
rejected with status false *without invoking the tool*; an exception from
the tool is caught and reported with its text; otherwise the result of the tool
comes back with status true under `data`. -/
theorem c10_execute_tool_contract
    (tools : List (String × Registry.ToolSpec)) (name : String)
    (kwargs : List (String × String)) :
    (alistGet tools name = none →
      Registry.execute_tool tools name kwargs
        = (.err ("Tool \x27" ++ name ++ "\x27 not found"), false))
    ∧ (∀ tool, alistGet tools name = some tool →
        tool.required_parameters.filter
          (fun p => (alistGet kwargs p).isNone) ≠ [] →
        Registry.execute_tool tools name kwargs
          = (.err ("Missing required parameters: "
              ++ String.intercalate ", "
                (tool.required_parameters.filter
                  (fun p => (alistGet kwargs p).isNone))), false))
    ∧ (∀ tool e, alistGet tools name = some tool →
        tool.required_parameters.filter
          (fun p => (alistGet kwargs p).isNone) = [] →
        tool.impl kwargs = .error e →
        Registry.execute_tool tools name kwargs
          = (.err ("Tool execution error: " ++ e), true))
    ∧ (∀ tool d, alistGet tools name = some tool →
        tool.required_parameters.filter
          (fun p => (alistGet kwargs p).isNone) = [] →
        tool.impl kwargs = .ok d →
        Registry.execute_tool tools name kwargs = (.ok d, true)) := by
  refine ⟨?_, ?_, ?_, ?_⟩
  · intro h
    simp [Registry.execute_tool, h]
  · intro tool hfound hmiss
    have hne : ¬ (tool.required_parameters.filter
        (fun p => (alistGet kwargs p).isNone)).isEmpty := by
      cases hl : tool.required_parameters.filter
          (fun p => (alistGet kwargs p).isNone) with
      | nil => exact absurd hl hmiss
      | cons a l => simp
    simp [Registry.execute_tool, hfound, hne]
  · intro tool e hfound hmiss himpl
    simp [Registry.execute_tool, hfound, hmiss, himpl]
  · intro tool d hfound hmiss himpl
    simp [Registry.execute_tool, hfound, hmiss, himpl]

/-- A one-tool registry: `list_exams` requires `instructor_id`. -/
def c10Tool : Registry.ToolSpec :=
  { required_parameters := ["instructor_id"],
    impl := fun _ => Except.ok "exam list payload" }

/-- The registry holding `c10Tool`. -/
def c10Registry : List (String × Registry.ToolSpec) :=
  [("list_exams", c10Tool)]

/-- C10 witness: the three observable outcomes at concrete inputs — an
unknown name, a missing required parameter (in both cases the tool was not
invoked), and a successful call. -/
theorem c10_witness :
    Registry.execute_tool c10Registry "unschedule_exam" []
      = (.err ("Tool \x27" ++ "unschedule_exam" ++ "\x27 not found"), false)
    ∧ Registry.execute_tool c10Registry "list_exams" []
      = (.err ("Missing required parameters: "
          ++ String.intercalate ", "
            (c10Tool.required_parameters.filter
              (fun p => (alistGet ([] : List (String × String)) p).isNone))),
         false)
    ∧ Registry.execute_tool c10Registry "list_exams" [("instructor_id", "i1")]
      = (.ok "exam list payload", true) :=
  ⟨(c10_execute_tool_contract c10Registry "unschedule_exam" []).1 rfl,
   (c10_execute_tool_contract c10Registry "list_exams" []).2.1 c10Tool rfl
      (by decide),
   (c10_execute_tool_contract c10Registry "list_exams"
      [("instructor_id", "i1")]).2.2.2 c10Tool "exam list payload" rfl rfl rfl⟩
